import Mathlib

/-!
Verification of the query validation and execution gateway of the
`llm_duck` repository (`src/data_mcp/`): a shallow embedding in Lean 4 of
`database.py` (`validate_sql_query`, `execute_query`, `get_schema_info`,
`_get_basic_schema_info`), `server.py` (`query_data`) and `models.py`
(`AppContext._initialize_tables`), together with theorems about the
spec's claims on these functions.

Python strings are embedded as `List Char`; Python `str.upper` as
`Char.toUpper` mapped over the list, `str.strip` as dropping whitespace
on both ends, the `in` substring test as `List.IsInfix`, and
`str.startswith` as `List.isPrefixOf`.  Fallible engine calls are
abstracted as `Except`-valued oracles; Python dictionaries are embedded
as insertion-ordered association lists with last-write-wins keys.
-/

namespace DataMcp

/-- Python strings, embedded as lists of characters. -/
abbrev Str := List Char

/-- `str.upper()` (ASCII view, matching the keyword alphabet used here). -/
def pyUpper (s : Str) : Str := s.map Char.toUpper

/-- `str.strip()`: remove leading and trailing whitespace. -/
def pyStrip (s : Str) : Str :=
  List.rdropWhile Char.isWhitespace (s.dropWhile Char.isWhitespace)

/-- Python truthiness of a string: non-empty. -/
def pyTruthy (s : Str) : Bool := !s.isEmpty

/-- The outcome of `validate_sql_query` in `src/data_mcp/database.py`:
`none` means the query passed, `some e` that `ValidationError` was raised
with reason `e`. -/
inductive ValidationError where
  | emptyQuery
  | forbiddenKeyword (kw : Str)
  | onlySelect
  | selectStarWithoutLimit
deriving DecidableEq, Repr

/-- The `dangerous_keywords` list of `validate_sql_query`
(`src/data_mcp/database.py`, lines 97-108), in source order. -/
def dangerous_keywords : List Str :=
  ["DROP".data, "DELETE".data, "UPDATE".data, "INSERT".data, "ALTER".data,
   "CREATE".data, "TRUNCATE".data, "EXEC".data, "EXECUTE".data, "PRAGMA".data]

/-- Shallow embedding of `DatabaseManager.validate_sql_query`
(`src/data_mcp/database.py`, lines 81-122).  Returns `some reason` when the
Python code raises `ValidationError`, `none` when it returns normally. -/
def validate_sql_query (sql : Str) : Option ValidationError :=
  if !pyTruthy sql || !pyTruthy (pyStrip sql) then
    some .emptyQuery
  else
    let sql_upper := pyStrip (pyUpper sql)
    match dangerous_keywords.find? (fun kw => decide (kw <:+: sql_upper)) with
    | some kw => some (.forbiddenKeyword kw)
    | none =>
      if !("SELECT".data.isPrefixOf sql_upper) then
        some .onlySelect
      else if decide ("SELECT *".data <:+: sql_upper) &&
              !(decide ("LIMIT".data <:+: sql_upper)) then
        some .selectStarWithoutLimit
      else
        none

example : validate_sql_query "".data = some .emptyQuery := by decide
example : validate_sql_query "   ".data = some .emptyQuery := by decide
example : validate_sql_query "DROP TABLE t".data
    = some (.forbiddenKeyword "DROP".data) := by decide
example : validate_sql_query "SELECT * FROM t".data
    = some .selectStarWithoutLimit := by decide
example : validate_sql_query "SELECT * FROM t LIMIT 5".data = none := by decide
example : validate_sql_query "SELECT a,b FROM t".data = none := by decide
example : validate_sql_query "show tables".data = some .onlySelect := by decide
example : validate_sql_query "select 1".data = none := by decide

/-! ### Helper lemmas about `pyUpper` and `pyStrip` -/

lemma toUpper_of_isWhitespace {c : Char} (h : c.isWhitespace = true) :
    Char.toUpper c = c := by
  simp only [Char.isWhitespace, Bool.or_eq_true, decide_eq_true_eq] at h
  rcases h with ((h | h) | h) | h <;> subst h <;> decide

lemma isWhitespace_toUpper {c : Char} (h : c.isWhitespace = true) :
    (Char.toUpper c).isWhitespace = true := by
  rw [toUpper_of_isWhitespace h]; exact h

lemma pyStrip_nil : pyStrip [] = [] := rfl

lemma pyStrip_within (l : Str) : pyStrip l <:+: l :=
  (List.rdropWhile_prefix _ _).isInfix.trans
    (List.dropWhile_suffix _).isInfix

lemma mem_dropWhile_of_mem {l : List Char} {c : Char}
    (hc : c ∈ l) (hw : c.isWhitespace = false) :
    c ∈ l.dropWhile Char.isWhitespace := by
  have hsplit := List.takeWhile_append_dropWhile Char.isWhitespace l
  rw [← hsplit] at hc
  rcases List.mem_append.mp hc with h | h
  · exact absurd (List.mem_takeWhile_imp h) (by simp [hw])
  · exact h

lemma pyStrip_ne_nil_of_mem {l : List Char} {c : Char}
    (hc : c ∈ l) (hw : c.isWhitespace = false) : pyStrip l ≠ [] := by
  intro h
  have hmem := mem_dropWhile_of_mem hc hw
  have := (List.rdropWhile_eq_nil_iff.mp h) c hmem
  simp [hw] at this

lemma infix_dropWhile {α : Type} (p : α → Bool) (c : α) (t : List α)
    (hc : p c = false) :
    ∀ a b : List α, (c :: t) <:+: List.dropWhile p (a ++ (c :: t) ++ b) := by
  intro a
  induction a with
  | nil =>
    intro b
    rw [List.nil_append, List.cons_append,
      List.dropWhile_cons_of_neg (by simp [hc])]
    exact ⟨[], b, by simp⟩
  | cons x a ih =>
    intro b
    by_cases hx : p x = true
    · have : (x :: a) ++ (c :: t) ++ b = x :: (a ++ (c :: t) ++ b) := by simp
      rw [this, List.dropWhile_cons_of_pos hx]
      exact ih b
    · have : (x :: a) ++ (c :: t) ++ b = x :: (a ++ (c :: t) ++ b) := by simp
      rw [this, List.dropWhile_cons_of_neg (by simpa using hx)]
      exact ⟨x :: a, b, by simp⟩

lemma infix_dropWhile_mono {α : Type} [Inhabited α] {p : α → Bool}
    {l₁ l₂ : List α} (hne : l₁ ≠ []) (hh : p l₁.headI = false)
    (h : l₁ <:+: l₂) : l₁ <:+: l₂.dropWhile p := by
  obtain ⟨a, b, rfl⟩ := h
  cases l₁ with
  | nil => exact absurd rfl hne
  | cons c t => exact infix_dropWhile p c t (by simpa using hh) a b

/-- An infix whose first and last characters are not whitespace survives
`str.strip()` of the enclosing string. -/
lemma infix_pyStrip {l₁ l₂ : Str} (hne : l₁ ≠ [])
    (hhead : l₁.headI.isWhitespace = false)
    (hlast : l₁.reverse.headI.isWhitespace = false)
    (h : l₁ <:+: l₂) : l₁ <:+: pyStrip l₂ := by
  have step1 : l₁ <:+: l₂.dropWhile Char.isWhitespace :=
    infix_dropWhile_mono hne hhead h
  have hner : l₁.reverse ≠ [] := by simpa using hne
  have step2 : l₁.reverse <:+:
      (l₂.dropWhile Char.isWhitespace).reverse.dropWhile Char.isWhitespace :=
    infix_dropWhile_mono hner hlast (List.reverse_infix.mpr step1)
  have := List.reverse_infix.mpr step2
  simpa [pyStrip, List.rdropWhile] using this

/-! ### Claim C3: rejection of non-SELECT queries -/

/-- C3 counterexample: `"DROP TABLE x"` is non-empty after trimming and does
not start with `SELECT` case-insensitively, yet `validate_sql_query` rejects
it with the forbidden-keyword reason, not the "only SELECT queries are
allowed" reason the claim asserts. -/
theorem validate_non_select_reason_cex :
    pyStrip "DROP TABLE x".data ≠ [] ∧
    ¬ ("SELECT".data <+: pyStrip (pyUpper "DROP TABLE x".data)) ∧
    validate_sql_query "DROP TABLE x".data
      = some (.forbiddenKeyword "DROP".data) ∧
    validate_sql_query "DROP TABLE x".data ≠ some .onlySelect := by
  refine ⟨by decide, by decide, by decide, by decide⟩

/-- C3 (amended): every string that is non-empty after trimming, contains no
forbidden keyword, and does not start with `SELECT` case-insensitively is
rejected by `validate_sql_query` with the "only SELECT queries are allowed"
reason. -/
theorem validate_rejects_non_select (s : Str)
    (h0 : pyStrip s ≠ [])
    (hk : ∀ kw ∈ dangerous_keywords, ¬ (kw <:+: pyStrip (pyUpper s)))
    (hsel : ¬ ("SELECT".data <+: pyStrip (pyUpper s))) :
    validate_sql_query s = some .onlySelect := by
  have hs : s ≠ [] := by
    intro h; subst h; exact h0 pyStrip_nil
  have hfind : dangerous_keywords.find?
      (fun kw => decide (kw <:+: pyStrip (pyUpper s))) = none :=
    List.find?_eq_none.mpr (fun kw hkw => by simpa using hk kw hkw)
  have hpre : "SELECT".data.isPrefixOf (pyStrip (pyUpper s)) = false := by
    rw [Bool.eq_false_iff]
    exact fun hcontra => hsel (List.isPrefixOf_iff_prefix.mp hcontra)
  simp only [validate_sql_query, pyTruthy, hfind]
  rw [if_neg (by simp [List.isEmpty_iff, hs, h0])]
  simp [hpre]

theorem validate_rejects_non_select_witness :
    (pyStrip "show tables".data ≠ [] ∧
     (∀ kw ∈ dangerous_keywords,
        ¬ (kw <:+: pyStrip (pyUpper "show tables".data))) ∧
     ¬ ("SELECT".data <+: pyStrip (pyUpper "show tables".data))) ∧
    validate_sql_query "show tables".data = some .onlySelect :=
  ⟨⟨by decide, by decide, by decide⟩,
    validate_rejects_non_select _ (by decide) (by decide) (by decide)⟩

/-! ### Claim C4: rejection of forbidden keywords -/

/-- C4: every string containing one of the fixed forbidden keywords as a
case-insensitive substring anywhere in its text is rejected by
`validate_sql_query` with a `ValidationError` naming a keyword that is
genuinely matched in the text. -/
theorem validate_rejects_forbidden_keyword (s : Str) (kw : Str)
    (hmem : kw ∈ dangerous_keywords) (hinf : kw <:+: pyUpper s) :
    ∃ kw', kw' ∈ dangerous_keywords ∧ kw' <:+: pyUpper s ∧
      validate_sql_query s = some (.forbiddenKeyword kw') := by
  have hfacts : ∀ k ∈ dangerous_keywords, k ≠ [] ∧
      k.headI.isWhitespace = false ∧ k.reverse.headI.isWhitespace = false := by
    decide
  obtain ⟨hne, hhead, hlast⟩ := hfacts kw hmem
  -- the keyword also occurs in the stripped upper-cased text
  have hstrip : kw <:+: pyStrip (pyUpper s) :=
    infix_pyStrip hne hhead hlast hinf
  -- the original string contains a non-whitespace character
  obtain ⟨k₀, kt, hkw⟩ : ∃ k₀ kt, kw = k₀ :: kt := by
    cases kw with
    | nil => exact absurd rfl hne
    | cons a b => exact ⟨a, b, rfl⟩
  have hk₀ : k₀.isWhitespace = false := by
    rw [hkw] at hhead; simpa using hhead
  have hk₀mem : k₀ ∈ pyUpper s := by
    have hk₀kw : k₀ ∈ kw := by rw [hkw]; simp
    exact hinf.sublist.subset hk₀kw
  obtain ⟨c, hcs, hcup⟩ := List.mem_map.mp hk₀mem
  have hcw : c.isWhitespace = false := by
    cases h : c.isWhitespace
    · rfl
    · exfalso
      have hupw := isWhitespace_toUpper h
      rw [hcup] at hupw
      rw [hupw] at hk₀
      simp at hk₀
  have hstripne : pyStrip s ≠ [] := pyStrip_ne_nil_of_mem hcs hcw
  have hsne : s ≠ [] := by
    intro h; subst h; simp at hcs
  -- the keyword scan finds some keyword
  have hsome : (dangerous_keywords.find?
      (fun k => decide (k <:+: pyStrip (pyUpper s)))).isSome := by
    rw [List.find?_isSome]
    exact ⟨kw, hmem, by simpa using hstrip⟩
  obtain ⟨kw', hkw'⟩ := Option.isSome_iff_exists.mp hsome
  have hkw'inf : kw' <:+: pyStrip (pyUpper s) := by
    have := List.find?_some hkw'
    simpa using this
  refine ⟨kw', List.mem_of_find?_eq_some hkw',
    hkw'inf.trans (pyStrip_within _), ?_⟩
  simp only [validate_sql_query, pyTruthy, hkw']
  rw [if_neg (by simp [List.isEmpty_iff, hsne, hstripne])]

theorem validate_rejects_forbidden_keyword_witness :
    ("DROP".data ∈ dangerous_keywords ∧
     "DROP".data <:+: pyUpper "drop table t".data) ∧
    ∃ kw', kw' ∈ dangerous_keywords ∧ kw' <:+: pyUpper "drop table t".data ∧
      validate_sql_query "drop table t".data = some (.forbiddenKeyword kw') :=
  ⟨⟨by decide, by decide⟩,
    validate_rejects_forbidden_keyword "drop table t".data "DROP".data
      (by decide) (by decide)⟩

/-! ### Claim C7: the SELECT * / LIMIT heuristic -/

lemma select_star_facts :
    ("SELECT *".data ≠ [] ∧
     "SELECT *".data.headI.isWhitespace = false ∧
     "SELECT *".data.reverse.headI.isWhitespace = false) ∧
    ("LIMIT".data ≠ [] ∧
     "LIMIT".data.headI.isWhitespace = false ∧
     "LIMIT".data.reverse.headI.isWhitespace = false) := by decide

lemma chars_nonempty_of_select_star {s : Str}
    (h : "SELECT *".data <:+: pyUpper s) :
    s ≠ [] ∧ pyStrip s ≠ [] := by
  have hmem : 'S' ∈ pyUpper s := h.sublist.subset (by decide)
  obtain ⟨c, hcs, hcup⟩ := List.mem_map.mp hmem
  have hcw : c.isWhitespace = false := by
    cases hw : c.isWhitespace
    · rfl
    · exfalso
      have hupw := isWhitespace_toUpper hw
      rw [hcup] at hupw
      simp at hupw
  exact ⟨by intro hnil; subst hnil; simp at hcs,
    pyStrip_ne_nil_of_mem hcs hcw⟩

/-- C7: a query whose upper-cased text contains `SELECT *` but not `LIMIT`
is always rejected by `validate_sql_query`; the "SELECT * requires LIMIT"
rule never fires when `LIMIT` is present; and the three example queries of
the spec behave as stated. -/
theorem validate_select_star_requires_limit :
    (∀ s : Str, "SELECT *".data <:+: pyUpper s →
       ¬ ("LIMIT".data <:+: pyUpper s) →
       ∃ e, validate_sql_query s = some e) ∧
    (∀ s : Str, "LIMIT".data <:+: pyUpper s →
       validate_sql_query s ≠ some .selectStarWithoutLimit) ∧
    validate_sql_query "SELECT * FROM t".data = some .selectStarWithoutLimit ∧
    validate_sql_query "SELECT * FROM t LIMIT 5".data = none ∧
    validate_sql_query "SELECT a,b FROM t".data = none := by
  obtain ⟨⟨hssne, hsshead, hsslast⟩, ⟨hlne, hlhead, hllast⟩⟩ :=
    select_star_facts
  refine ⟨?_, ?_, by decide, by decide, by decide⟩
  · intro s hss hlim
    obtain ⟨hsne, hstripne⟩ := chars_nonempty_of_select_star hss
    have hssstrip : "SELECT *".data <:+: pyStrip (pyUpper s) :=
      infix_pyStrip hssne hsshead hsslast hss
    have hlimstrip : ¬ ("LIMIT".data <:+: pyStrip (pyUpper s)) :=
      fun hcontra => hlim (hcontra.trans (pyStrip_within _))
    simp only [validate_sql_query, pyTruthy]
    rw [if_neg (by simp [List.isEmpty_iff, hsne, hstripne])]
    cases hfind : dangerous_keywords.find?
        (fun kw => decide (kw <:+: pyStrip (pyUpper s))) with
    | some kw => exact ⟨.forbiddenKeyword kw, by simp⟩
    | none =>
      cases hpre : "SELECT".data.isPrefixOf (pyStrip (pyUpper s)) with
      | false => exact ⟨.onlySelect, by simp⟩
      | true =>
        refine ⟨.selectStarWithoutLimit, ?_⟩
        simp [hssstrip, hlimstrip]
  · intro s hlim heq
    have hlimstrip : "LIMIT".data <:+: pyStrip (pyUpper s) :=
      infix_pyStrip hlne hlhead hllast hlim
    simp only [validate_sql_query, pyTruthy] at heq
    split at heq
    · simp at heq
    · split at heq
      · simp at heq
      · split at heq
        · simp at heq
        · split at heq
          · rename_i hcond
            rw [Bool.and_eq_true] at hcond
            have := hcond.2
            simp [hlimstrip] at this
          · simp at heq

theorem validate_select_star_requires_limit_witness :
    ("SELECT *".data <:+: pyUpper "select * from t".data ∧
     ¬ ("LIMIT".data <:+: pyUpper "select * from t".data)) ∧
    ∃ e, validate_sql_query "select * from t".data = some e :=
  ⟨⟨by decide, by decide⟩,
    validate_select_star_requires_limit.1 "select * from t".data
      (by decide) (by decide)⟩

/-! ### The query executor (`DatabaseManager.execute_query`) -/

/-- Scalar values in a result set. -/
inductive Value where
  | intV (n : Int)
  | strV (s : Str)
  | nullV
deriving DecidableEq, Repr

/-- An exception raised by the embedded engine during execute/fetch. -/
inductive EngineError where
  | err (msg : Str)
deriving DecidableEq, Repr

/-- What `db.execute(...).fetchall()` plus `db.description` yield:
positional rows and the declared column names (first element of each
description tuple). -/
structure EngineResult where
  rows : List (List Value)
  columns : List Str
deriving DecidableEq, Repr

/-- The abstract engine: one call per executed statement, with optional
bound parameters. -/
abbrev Engine := Str → Option (List (Str × Value)) → Except EngineError EngineResult

/-- Python truthiness of the `params` argument: `None` and `{}` are falsy. -/
def pyTruthyParams : Option (List (Str × Value)) → Bool
  | none => false
  | some l => !l.isEmpty

/-- `len(params) if params else 0`. -/
def paramCount : Option (List (Str × Value)) → Nat
  | none => 0
  | some l => l.length

/-- `query[:100] + "..." if len(query) > 100 else query`. -/
def preview (q : Str) : Str :=
  if q.length > 100 then q.take 100 ++ "...".data else q

/-- Structured events emitted on the logger by `execute_query`
(timestamps/durations are outside the embedding). -/
inductive LogEvent where
  | executingQuery (preview : Str) (hasParams : Bool) (paramCount : Nat)
  | querySuccess (rowCount : Nat) (columnCount : Nat)
  | queryFailure (preview : Str)
deriving DecidableEq, Repr

/-- The original cause chained into `DatabaseError` by
`raise DatabaseError(...) from e`: either the engine's exception or the
`ValueError` from `zip(..., strict=True)`. -/
inductive DbCause where
  | engine (e : EngineError)
  | zipStrict
deriving DecidableEq, Repr

/-- `DatabaseError` as raised by `execute_query`, carrying its cause. -/
structure DatabaseError where
  cause : DbCause
deriving DecidableEq, Repr

/-- `zip(columns, row, strict=True)`; `none` models the `ValueError`
raised on a length mismatch. -/
def zipStrict : List Str → List Value → Option (List (Str × Value))
  | [], [] => some []
  | c :: cs, v :: vs => (zipStrict cs vs).map (fun ps => (c, v) :: ps)
  | _, _ => none

/-- Python dictionary assignment `d[k] = v` on an insertion-ordered
dictionary: overwrite in place if the key exists, else append. -/
def dictInsert {α : Type} (d : List (Str × α)) (k : Str) (v : α) :
    List (Str × α) :=
  if d.any (fun p => p.1 == k) then
    d.map (fun p => if p.1 == k then (p.1, v) else p)
  else d ++ [(k, v)]

/-- Python `dict(pairs)`: later pairs overwrite earlier keys. -/
def pyDict {α : Type} (ps : List (Str × α)) : List (Str × α) :=
  ps.foldl (fun d p => dictInsert d p.1 p.2) []

/-- The list comprehension
`[dict(zip(columns, row, strict=True)) for row in result]`;
`none` models the `ValueError` escaping from it. -/
def rowsToDicts (cols : List Str) :
    List (List Value) → Option (List (List (Str × Value)))
  | [] => some []
  | r :: rs =>
    match zipStrict cols r, rowsToDicts cols rs with
    | some ps, some ds => some (pyDict ps :: ds)
    | _, _ => none

/-- The engine call made by `execute_query`: with parameter binding when
`params` is truthy, on the literal text otherwise. -/
def engineOutcome (engine : Engine) (query : Str)
    (params : Option (List (Str × Value))) : Except EngineError EngineResult :=
  if pyTruthyParams params then engine query params else engine query none

/-- The observable outcome of one `execute_query` call: its return value or
raised `DatabaseError`, the logger events it emitted, and how many
statements it sent to the engine. -/
structure ExecOutcome where
  result : Except DatabaseError (List (List (Str × Value)))
  log : List LogEvent
  engineCalls : Nat
deriving Repr

/-- Shallow embedding of `DatabaseManager.execute_query`
(`src/data_mcp/database.py`, lines 21-79). -/
def execute_query (engine : Engine) (query : Str)
    (params : Option (List (Str × Value))) : ExecOutcome :=
  match engineOutcome engine query params with
  | .error e =>
      { result := .error ⟨.engine e⟩,
        log := [.executingQuery (preview query) (pyTruthyParams params)
                  (paramCount params),
                .queryFailure (preview query)],
        engineCalls := 1 }
  | .ok er =>
      match rowsToDicts er.columns er.rows with
      | none =>
          { result := .error ⟨.zipStrict⟩,
            log := [.executingQuery (preview query) (pyTruthyParams params)
                      (paramCount params),
                    .queryFailure (preview query)],
            engineCalls := 1 }
      | some ds =>
          { result := .ok ds,
            log := [.executingQuery (preview query) (pyTruthyParams params)
                      (paramCount params),
                    .querySuccess ds.length er.columns.length],
            engineCalls := 1 }

lemma rowsToDicts_length {cols : List Str} :
    ∀ {rows : List (List Value)} {ds : List (List (Str × Value))},
      rowsToDicts cols rows = some ds → ds.length = rows.length := by
  intro rows
  induction rows with
  | nil => intro ds h; simp [rowsToDicts] at h; simp [← h]
  | cons r rs ih =>
    intro ds h
    simp only [rowsToDicts] at h
    cases hz : zipStrict cols r with
    | none => rw [hz] at h; simp at h
    | some ps =>
      rw [hz] at h
      cases hr : rowsToDicts cols rs with
      | none => rw [hr] at h; simp at h
      | some ds' =>
        rw [hr] at h
        simp only [Option.some.injEq] at h
        subst h
        simp [ih hr]

/-! ### Claim C5: atomicity of `execute_query` -/

/-- C5: `execute_query` either returns the complete converted row
sequence — one dictionary per fetched row — or raises a `DatabaseError`
that chains the original cause (the engine's exception, or the
`ValueError` of the strict zip); never a partial row sequence, never rows
alongside an error. -/
theorem execute_query_atomic (engine : Engine) (q : Str)
    (params : Option (List (Str × Value))) :
    (∃ er ds, engineOutcome engine q params = .ok er ∧
       rowsToDicts er.columns er.rows = some ds ∧
       (execute_query engine q params).result = .ok ds ∧
       ds.length = er.rows.length) ∨
    (∃ e, engineOutcome engine q params = .error e ∧
       (execute_query engine q params).result = .error ⟨.engine e⟩) ∨
    (∃ er, engineOutcome engine q params = .ok er ∧
       rowsToDicts er.columns er.rows = none ∧
       (execute_query engine q params).result = .error ⟨.zipStrict⟩) := by
  cases heng : engineOutcome engine q params with
  | error e =>
    refine Or.inr (Or.inl ⟨e, rfl, ?_⟩)
    simp only [execute_query, heng]
  | ok er =>
    cases hrd : rowsToDicts er.columns er.rows with
    | none =>
      refine Or.inr (Or.inr ⟨er, rfl, hrd, ?_⟩)
      simp only [execute_query, heng, hrd]
    | some ds =>
      refine Or.inl ⟨er, ds, rfl, hrd, ?_, rowsToDicts_length hrd⟩
      simp only [execute_query, heng, hrd]

/-! ### Claim C9: empty parameter mapping behaves like no parameters -/

/-- C9: `execute_query(q, {})` is indistinguishable from
`execute_query(q, None)` — the empty dict is falsy, so the literal-text
path is taken and the whole observable outcome coincides. -/
theorem execute_query_empty_params (engine : Engine) (q : Str) :
    execute_query engine q (some []) = execute_query engine q none := rfl

/-! ### Dictionary and strict-zip lemmas -/

lemma zipStrict_map_fst : ∀ {cols : List Str} {vals : List Value}
    {ps : List (Str × Value)}, zipStrict cols vals = some ps →
    ps.map Prod.fst = cols := by
  intro cols
  induction cols with
  | nil =>
    intro vals ps h
    cases vals with
    | nil => simp [zipStrict] at h; simp [← h]
    | cons v vs => simp [zipStrict] at h
  | cons c cs ih =>
    intro vals ps h
    cases vals with
    | nil => simp [zipStrict] at h
    | cons v vs =>
      simp only [zipStrict] at h
      cases hz : zipStrict cs vs with
      | none => rw [hz] at h; simp at h
      | some ps' =>
        rw [hz] at h
        simp at h
        subst h
        simp [ih hz]

lemma zipStrict_none_of_length_ne : ∀ {cols : List Str} {vals : List Value},
    cols.length ≠ vals.length → zipStrict cols vals = none := by
  intro cols
  induction cols with
  | nil =>
    intro vals h
    cases vals with
    | nil => simp at h
    | cons v vs => simp [zipStrict]
  | cons c cs ih =>
    intro vals h
    cases vals with
    | nil => simp [zipStrict]
    | cons v vs =>
      have : cs.length ≠ vs.length := by
        intro hc; exact h (by simp [hc])
      simp [zipStrict, ih this]

lemma keys_update {α : Type} (d : List (Str × α)) (k : Str) (v : α) :
    (d.map (fun p => if p.1 == k then (p.1, v) else p)).map Prod.fst
      = d.map Prod.fst := by
  induction d with
  | nil => rfl
  | cons p d ih =>
    simp only [List.map_cons, ih]
    congr 1
    by_cases h : p.1 == k <;> simp [h]

lemma mem_keys_dictInsert {α : Type} {d : List (Str × α)} {k k' : Str}
    {v : α} : k' ∈ (dictInsert d k v).map Prod.fst ↔
      k' ∈ d.map Prod.fst ∨ k' = k := by
  unfold dictInsert
  by_cases hany : d.any (fun p => p.1 == k)
  · rw [if_pos hany, keys_update]
    obtain ⟨p, hp, hpk⟩ := List.any_eq_true.mp hany
    have hk : k ∈ d.map Prod.fst := by
      rw [← eq_of_beq hpk]
      exact List.mem_map_of_mem _ hp
    constructor
    · exact Or.inl
    · rintro (h | rfl)
      · exact h
      · exact hk
  · rw [if_neg hany]
    simp only [List.map_append, List.mem_append, List.map_cons, List.map_nil,
      List.mem_singleton]

lemma nodup_keys_dictInsert {α : Type} {d : List (Str × α)} {k : Str}
    {v : α} (h : (d.map Prod.fst).Nodup) :
    ((dictInsert d k v).map Prod.fst).Nodup := by
  unfold dictInsert
  by_cases hany : d.any (fun p => p.1 == k)
  · rw [if_pos hany, keys_update]; exact h
  · rw [if_neg hany]
    have hk : k ∉ d.map Prod.fst := by
      intro hmem
      obtain ⟨p, hp, hpk⟩ := List.mem_map.mp hmem
      exact hany (List.any_eq_true.mpr ⟨p, hp, by simp [hpk]⟩)
    simp [List.nodup_append, h, hk]

lemma keys_foldl_mem {α : Type} : ∀ (ps d : List (Str × α)) (k : Str),
    k ∈ ((ps.foldl (fun d p => dictInsert d p.1 p.2) d).map Prod.fst) ↔
      k ∈ d.map Prod.fst ∨ k ∈ ps.map Prod.fst := by
  intro ps
  induction ps with
  | nil =>
    intro d k
    simp only [List.foldl_nil, List.map_nil, List.not_mem_nil, or_false]
  | cons p ps ih =>
    intro d k
    simp only [List.foldl_cons, ih, mem_keys_dictInsert, List.map_cons,
      List.mem_cons]
    tauto

lemma keys_foldl_nodup {α : Type} : ∀ (ps d : List (Str × α)),
    (d.map Prod.fst).Nodup →
    ((ps.foldl (fun d p => dictInsert d p.1 p.2) d).map Prod.fst).Nodup := by
  intro ps
  induction ps with
  | nil => exact fun d h => h
  | cons p ps ih => exact fun d h => ih _ (nodup_keys_dictInsert h)

lemma pyDict_keys_nodup {α : Type} (ps : List (Str × α)) :
    ((pyDict ps).map Prod.fst).Nodup :=
  keys_foldl_nodup ps [] (by simp only [List.map_nil, List.nodup_nil])

lemma mem_pyDict_keys {α : Type} {ps : List (Str × α)} {k : Str} :
    k ∈ (pyDict ps).map Prod.fst ↔ k ∈ ps.map Prod.fst := by
  unfold pyDict
  rw [keys_foldl_mem]
  simp only [List.map_nil, List.not_mem_nil, false_or]

lemma countP_key_eq_one {α : Type} : ∀ {d : List (Str × α)} {c : Str},
    (d.map Prod.fst).Nodup → c ∈ d.map Prod.fst →
    d.countP (fun p => p.1 == c) = 1 := by
  intro d
  induction d with
  | nil => intro c _ hmem; simp at hmem
  | cons p d ih =>
    intro c hnd hmem
    simp only [List.map_cons, List.nodup_cons] at hnd
    obtain ⟨hp, hnd'⟩ := hnd
    rw [List.countP_cons]
    simp only [List.map_cons, List.mem_cons] at hmem
    rcases hmem with heq | hmem
    · have hz : d.countP (fun q => q.1 == c) = 0 := by
        rw [List.countP_eq_zero]
        intro q hq
        simp only [beq_iff_eq]
        intro hqc
        rw [heq] at hqc
        exact hp (hqc ▸ List.mem_map_of_mem _ hq)
      rw [hz, show (p.1 == c) = true from beq_iff_eq.mpr heq.symm]
      rfl
    · have hne : (p.1 == c) = false := by
        simp only [beq_eq_false_iff_ne, ne_eq]
        intro hpc
        exact hp (hpc ▸ hmem)
      rw [ih hnd' hmem, hne]
      rfl

lemma rowsToDicts_mem {cols : List Str} :
    ∀ {rows : List (List Value)} {ds : List (List (Str × Value))},
      rowsToDicts cols rows = some ds → ∀ d ∈ ds,
      (d.map Prod.fst).Nodup ∧ ∀ c, (c ∈ d.map Prod.fst ↔ c ∈ cols) := by
  intro rows
  induction rows with
  | nil =>
    intro ds h d hd
    simp only [rowsToDicts, Option.some.injEq] at h
    subst h
    simp at hd
  | cons r rs ih =>
    intro ds h d hd
    simp only [rowsToDicts] at h
    cases hz : zipStrict cols r with
    | none => rw [hz] at h; simp at h
    | some ps =>
      rw [hz] at h
      cases hr : rowsToDicts cols rs with
      | none => rw [hr] at h; simp at h
      | some ds' =>
        rw [hr] at h
        simp only [Option.some.injEq] at h
        subst h
        rcases List.mem_cons.mp hd with rfl | hmem
        · refine ⟨pyDict_keys_nodup ps, fun c => ?_⟩
          rw [mem_pyDict_keys, zipStrict_map_fst hz]
        · exact ih hr d hmem

lemma rowsToDicts_none_of_bad_row {cols : List Str} :
    ∀ {rows : List (List Value)}, (∃ r ∈ rows, r.length ≠ cols.length) →
      rowsToDicts cols rows = none := by
  intro rows
  induction rows with
  | nil => rintro ⟨r, hr, _⟩; simp at hr
  | cons r rs ih =>
    rintro ⟨r', hr', hlen⟩
    rcases List.mem_cons.mp hr' with rfl | hmem
    · have hz : zipStrict cols r' = none :=
        zipStrict_none_of_length_ne (fun hc => hlen hc.symm)
      simp [rowsToDicts, hz]
    · have hr : rowsToDicts cols rs = none := ih ⟨r', hmem, hlen⟩
      rw [rowsToDicts, hr]
      cases zipStrict cols r <;> rfl

/-! ### Claim C10: one entry per declared column, strict zip -/

/-- C10: whenever the engine call succeeds, every dictionary returned by
`execute_query` has exactly one entry for each declared column and no entry
for an undeclared column; and if any fetched row's length differs from the
number of declared columns, the call raises `DatabaseError` (wrapping the
strict zip's `ValueError`) instead of truncating or padding. -/
theorem execute_query_strict_columns (engine : Engine) (q : Str)
    (params : Option (List (Str × Value))) (er : EngineResult)
    (h : engineOutcome engine q params = .ok er) :
    (∀ ds, (execute_query engine q params).result = .ok ds →
       ∀ d ∈ ds, (∀ c ∈ er.columns, d.countP (fun p => p.1 == c) = 1) ∧
         ∀ p ∈ d, p.1 ∈ er.columns) ∧
    ((∃ r ∈ er.rows, r.length ≠ er.columns.length) →
       (execute_query engine q params).result = .error ⟨.zipStrict⟩) := by
  constructor
  · intro ds hds d hd
    have hrd : rowsToDicts er.columns er.rows = some ds := by
      simp only [execute_query, h] at hds
      cases hz : rowsToDicts er.columns er.rows with
      | none => rw [hz] at hds; simp at hds
      | some ds' => rw [hz] at hds; simp at hds; rw [hds]
    obtain ⟨hnd, hiff⟩ := rowsToDicts_mem hrd d hd
    refine ⟨fun c hc => countP_key_eq_one hnd ((hiff c).mpr hc),
      fun p hp => (hiff p.1).mp (List.mem_map_of_mem _ hp)⟩
  · intro hex
    have hrd := rowsToDicts_none_of_bad_row hex
    simp only [execute_query, h, hrd]

/-- A concrete engine answering `SELECT 1 AS x` with one row and one
column, used to witness the executor theorems. -/
def unitEngine : Engine := fun _ _ =>
  .ok { rows := [[Value.intV 1]], columns := ["x".data] }

theorem execute_query_strict_columns_witness :
    engineOutcome unitEngine "SELECT 1 AS x".data none
      = .ok ⟨[[Value.intV 1]], ["x".data]⟩ ∧
    ((∀ ds, (execute_query unitEngine "SELECT 1 AS x".data none).result
          = .ok ds →
        ∀ d ∈ ds, (∀ c ∈ (["x".data] : List Str),
            d.countP (fun p => p.1 == c) = 1) ∧
          ∀ p ∈ d, p.1 ∈ (["x".data] : List Str)) ∧
     ((∃ r ∈ ([[Value.intV 1]] : List (List Value)),
         r.length ≠ (["x".data] : List Str).length) →
       (execute_query unitEngine "SELECT 1 AS x".data none).result
         = .error ⟨.zipStrict⟩)) :=
  ⟨rfl, execute_query_strict_columns unitEngine "SELECT 1 AS x".data none
    ⟨[[Value.intV 1]], ["x".data]⟩ rfl⟩

/-! ### The query tool (`query_data` in `src/data_mcp/server.py`) -/

/-- The error surfaced by the `query_data` tool: a `ValidationError` for a
rejected query, or the `DatabaseError` re-raised from `execute_query`. -/
inductive QueryError where
  | validation (e : ValidationError)
  | database (e : DatabaseError)
deriving Repr

/-- The observable outcome of one `query_data` call. -/
structure QueryOutcome where
  result : Except QueryError (List (List (Str × Value)))
  log : List LogEvent
  engineCalls : Nat
deriving Repr

/-- Shallow embedding of the `query_data` tool
(`src/data_mcp/server.py`, lines 56-122): an explicit empty-query check,
then `validate_sql_query`, then `execute_query(sql)` with no parameters.
MCP context notifications are outside the embedding; `log` records the
events emitted on the module logger. -/
def query_data (engine : Engine) (sql : Str) : QueryOutcome :=
  if !pyTruthy sql || !pyTruthy (pyStrip sql) then
    { result := .error (.validation .emptyQuery), log := [], engineCalls := 0 }
  else
    match validate_sql_query sql with
    | some e =>
      { result := .error (.validation e), log := [], engineCalls := 0 }
    | none =>
      let out := execute_query engine sql none
      { result := out.result.mapError .database,
        log := out.log,
        engineCalls := out.engineCalls }

/-! ### Claim C1: no execution without validation -/

/-- C1: whenever `validate_sql_query` rejects the submitted SQL string,
`query_data` makes zero engine calls and emits no execution log events —
the failure is reported as a `ValidationError` before any engine
interaction. -/
theorem query_data_validates_before_execute (engine : Engine) (sql : Str)
    (e : ValidationError) (h : validate_sql_query sql = some e) :
    (query_data engine sql).engineCalls = 0 ∧
    (query_data engine sql).log = [] ∧
    ∃ e', (query_data engine sql).result = .error (.validation e') := by
  unfold query_data
  by_cases hempty : (!pyTruthy sql || !pyTruthy (pyStrip sql)) = true
  · rw [if_pos hempty]
    exact ⟨rfl, rfl, .emptyQuery, rfl⟩
  · rw [if_neg hempty, h]
    exact ⟨rfl, rfl, e, rfl⟩

theorem query_data_validates_before_execute_witness :
    validate_sql_query "DROP TABLE t".data
      = some (.forbiddenKeyword "DROP".data) ∧
    ((query_data unitEngine "DROP TABLE t".data).engineCalls = 0 ∧
     (query_data unitEngine "DROP TABLE t".data).log = [] ∧
     ∃ e', (query_data unitEngine "DROP TABLE t".data).result
        = .error (.validation e')) :=
  ⟨by decide,
    query_data_validates_before_execute unitEngine "DROP TABLE t".data
      (.forbiddenKeyword "DROP".data) (by decide)⟩

/-! ### The schema reporter (`get_schema_info`, `_get_basic_schema_info`) -/

/-- One row of the `information_schema.columns` query:
`(column_name, data_type, is_nullable)`. -/
structure SchemaRow where
  column_name : Str
  data_type : Str
  is_nullable : Str
deriving DecidableEq, Repr

/-- The two catalog queries issued by the schema reporter, abstracted as
their outcomes on the current connection state: the `duckdb_columns()`
comment query (rows of `(column_name, comment)`, comments non-null by the
query's filter) and the `information_schema.columns` query.  The same
schema query text is issued by both `get_schema_info` and
`_get_basic_schema_info`, and the connection state does not change
between the two calls, so one outcome field models both. -/
structure SchemaEngine where
  commentRows : Except EngineError (List (Str × Str))
  schemaRows : Except EngineError (List SchemaRow)
deriving Repr

/-- Python `d.get(k, "")` on a dict represented as an association list. -/
def dictGetD (d : List (Str × Str)) (k : Str) : Str :=
  match d.find? (fun p => p.1 == k) with
  | some p => p.2
  | none => []

/-- One line of the full schema report:
`f"- {col_name}: {data_type} ({nullable_text}){comment_text}"`. -/
def schemaLine (comments_dict : List (Str × Str)) (r : SchemaRow) : Str :=
  let nullable_text : Str :=
    if r.is_nullable == "YES".data then "nullable".data else "not null".data
  let description := dictGetD comments_dict r.column_name
  let comment_text : Str :=
    if pyTruthy description then " - ".data ++ description else []
  "- ".data ++ r.column_name ++ ": ".data ++ r.data_type ++ " (".data
    ++ nullable_text ++ ")".data ++ comment_text

/-- One line of the basic schema report:
`f"- {col_name}: {data_type} ({nullable_text})"`. -/
def basicSchemaLine (r : SchemaRow) : Str :=
  let nullable_text : Str :=
    if r.is_nullable == "YES".data then "nullable".data else "not null".data
  "- ".data ++ r.column_name ++ ": ".data ++ r.data_type ++ " (".data
    ++ nullable_text ++ ")".data

/-- Shallow embedding of `DatabaseManager._get_basic_schema_info`
(`src/data_mcp/database.py`, lines 183-209).  The result is `none` when
the Python function falls off the end and implicitly returns `None`:
that happens when the schema query succeeds but yields zero rows, since
only the non-empty branch and the exception handler execute a `return`. -/
def get_basic_schema_info (eng : SchemaEngine) : Option Str :=
  match eng.schemaRows with
  | .error _ => some "Error retrieving schema information".data
  | .ok rows =>
    if !rows.isEmpty then
      some (List.intercalate "\n".data
        ("Service Requests Table Schema:".data :: rows.map basicSchemaLine))
    else none

/-- Shallow embedding of `DatabaseManager.get_schema_info`
(`src/data_mcp/database.py`, lines 124-181): build the comment dictionary
(empty when the comment query fails), render the full report when the
schema query returns rows, and otherwise fall back to
`_get_basic_schema_info` — both on an exception and on zero rows. -/
def get_schema_info (eng : SchemaEngine) : Option Str :=
  let comments_dict : List (Str × Str) :=
    match eng.commentRows with
    | .ok rs => pyDict rs
    | .error _ => []
  match eng.schemaRows with
  | .error _ => get_basic_schema_info eng
  | .ok rows =>
    if !rows.isEmpty then
      some (List.intercalate "\n".data
        (["Service Requests Table Schema:".data,
          ("NYC 311 Service Requests data for 2024 containing complaint " ++
           "information, locations, agencies, and resolution details").data,
          ([] : Str)] ++ rows.map (schemaLine comments_dict)))
    else get_basic_schema_info eng

/-! ### Claim C2: the schema-describe operation -/

/-- The connection state of a fresh in-memory database before any table
load: both catalog queries succeed and return zero rows. -/
def freshSchemaEngine : SchemaEngine :=
  { commentRows := .ok [], schemaRows := .ok [] }

/-- C2 (code bug): on a connection where the information-schema query
succeeds with zero rows — exactly the state before any table load —
`get_schema_info` returns Python `None` instead of a string, because
`_get_basic_schema_info` falls off the end of the function on its
empty-result path.  On a failing schema query the fixed error string is
returned, so the fallback tiers work only for the exception case. -/
theorem get_schema_info_none_before_table_load :
    get_schema_info freshSchemaEngine = none ∧
    get_basic_schema_info freshSchemaEngine = none ∧
    (∀ e : EngineError,
       get_schema_info { commentRows := .ok [], schemaRows := .error e }
         = some "Error retrieving schema information".data) :=
  ⟨rfl, rfl, fun _ => rfl⟩

/-! ### Application context initialization (`AppContext._initialize_tables`) -/

/-- The hard-coded `column_comments` mapping of `src/data_mcp/models.py`,
lines 44-86, in source order. -/
def column_comments : List (Str × Str) := [
  ("unique_key".data, "Unique identifier for each service request".data),
  ("created_date".data, "Date/time the request was created".data),
  ("closed_date".data, "Date/time the request was closed".data),
  ("agency".data, "The agency responsible for the request".data),
  ("agency_name".data, "Full name of the responsible agency".data),
  ("complaint_type".data, "Type of complaint/request".data),
  ("descriptor".data, "Detailed description of the issue".data),
  ("location_type".data, "Type of location where issue occurred".data),
  ("incident_zip".data, "ZIP code of the incident".data),
  ("incident_address".data, "Street address of the incident".data),
  ("street_name".data, "Name of the street".data),
  ("cross_street_1".data, "First cross street".data),
  ("cross_street_2".data, "Second cross street".data),
  ("intersection_street_1".data, "First intersection street".data),
  ("intersection_street_2".data, "Second intersection street".data),
  ("address_type".data, "Type of address".data),
  ("city".data, "City name".data),
  ("landmark".data, "Nearby landmark".data),
  ("facility_type".data, "Type of facility".data),
  ("status".data, "Current status of the request".data),
  ("due_date".data, "Due date for resolution".data),
  ("resolution_description".data, "Description of resolution".data),
  ("resolution_action_updated_date".data, "Date resolution was updated".data),
  ("community_board".data, "Community board identifier".data),
  ("bbl".data, "Borough, Block, and Lot number".data),
  ("borough".data, "NYC borough name".data),
  ("x_coordinate_state_plane".data, "X coordinate (State Plane)".data),
  ("y_coordinate_state_plane".data, "Y coordinate (State Plane)".data),
  ("open_data_channel_type".data, "Channel used to submit request".data),
  ("park_facility_name".data, "Name of park facility".data),
  ("park_borough".data, "Borough of the park".data),
  ("vehicle_type".data, "Type of vehicle involved".data),
  ("taxi_company_borough".data, "Borough of taxi company".data),
  ("taxi_pick_up_location".data, "Taxi pickup location".data),
  ("bridge_highway_name".data, "Name of bridge or highway".data),
  ("bridge_highway_direction".data, "Direction on bridge/highway".data),
  ("road_ramp".data, "Road ramp information".data),
  ("bridge_highway_segment".data, "Bridge/highway segment".data),
  ("latitude".data, "Latitude coordinate".data),
  ("longitude".data, "Longitude coordinate".data),
  ("location".data, "Combined location information".data)]

/-- Per-statement outcomes of the engine during
`AppContext._initialize_tables`: the `CREATE TABLE IF NOT EXISTS`
statement, the `COMMENT ON TABLE` statement, and each
`COMMENT ON COLUMN` statement. -/
structure InitEngine where
  createTable : Except EngineError Unit
  tableComment : Except EngineError Unit
  columnComment : Str → Except EngineError Unit

/-- The columns whose `COMMENT ON COLUMN` statement succeeded; a failing
statement is suppressed by `contextlib.suppress(Exception)` in the source
and does not stop the remaining attachments. -/
def appliedColumnComments (eng : InitEngine) : List Str :=
  column_comments.filterMap (fun p =>
    match eng.columnComment p.1 with
    | .ok _ => some p.1
    | .error _ => none)

/-- Shallow embedding of `AppContext._initialize_tables`
(`src/data_mcp/models.py`, lines 25-97) over per-statement outcomes:
`fileExists` is `service_requests_file.exists()`.  The returned value is
the list of columns that received comments (the observable effect of the
loop); a raised `DatabaseError` chains the engine's exception as in
`raise DatabaseError(...) from e`. -/
def initialize_tables (fileExists : Bool) (eng : InitEngine) :
    Except DatabaseError (List Str) :=
  if fileExists then
    match eng.createTable with
    | .error e => .error ⟨.engine e⟩
    | .ok _ =>
      match eng.tableComment with
      | .error e => .error ⟨.engine e⟩
      | .ok _ => .ok (appliedColumnComments eng)
  else .ok []

/-! ### Claim C6: fatal and non-fatal initialization failures -/

/-- An engine on which every `COMMENT ON COLUMN` statement fails while the
table creation and table comment succeed. -/
def allColumnCommentsFailEngine : InitEngine where
  createTable := .ok ()
  tableComment := .ok ()
  columnComment := fun _ => .error (.err "Catalog Error".data)

/-- C6 counterexample: a failure during column-comment attachment is not
fatal — with the source file present, every `COMMENT ON COLUMN` statement
failing, and everything else succeeding, `_initialize_tables` still
completes without raising `DatabaseError` (the comment loop suppresses
each failure). -/
theorem initialize_tables_comment_failure_cex :
    allColumnCommentsFailEngine.columnComment "unique_key".data
      = .error (.err "Catalog Error".data) ∧
    initialize_tables true allColumnCommentsFailEngine = .ok [] :=
  ⟨rfl, rfl⟩

/-- C6 (amended): a missing source file is non-fatal (the create step is
skipped and construction succeeds); a failure of the `CREATE TABLE` or of
the table-level `COMMENT ON TABLE` statement is fatal and surfaces as a
`DatabaseError` chaining the original cause; individual column-comment
failures are silently skipped and construction succeeds. -/
theorem initialize_tables_fatal_vs_nonfatal (eng : InitEngine) :
    (initialize_tables false eng = .ok []) ∧
    (∀ e, eng.createTable = .error e →
       initialize_tables true eng = .error ⟨.engine e⟩) ∧
    (∀ e, eng.createTable = .ok () → eng.tableComment = .error e →
       initialize_tables true eng = .error ⟨.engine e⟩) ∧
    (eng.createTable = .ok () → eng.tableComment = .ok () →
       initialize_tables true eng = .ok (appliedColumnComments eng)) := by
  refine ⟨rfl, ?_, ?_, ?_⟩
  · intro e he
    simp only [initialize_tables, he, if_true]
  · intro e hc ht
    simp only [initialize_tables, hc, ht, if_true]
  · intro hc ht
    simp only [initialize_tables, hc, ht, if_true]

theorem initialize_tables_fatal_vs_nonfatal_witness :
    initialize_tables true allColumnCommentsFailEngine
      = .ok (appliedColumnComments allColumnCommentsFailEngine) ∧
    initialize_tables false allColumnCommentsFailEngine = .ok [] :=
  ⟨(initialize_tables_fatal_vs_nonfatal allColumnCommentsFailEngine).2.2.2
      rfl rfl,
   (initialize_tables_fatal_vs_nonfatal allColumnCommentsFailEngine).1⟩

/-! ### Claim C8: idempotent table creation (state model) -/

/-- Abstract connection state for the successful initialization run: the
tables (name ↦ loaded rows), the table comments, and the column comments
of the one target table. -/
structure DuckState where
  tables : List (Str × List (List Value))
  tableComments : List (Str × Str)
  columnComments : List (Str × Str)
deriving Repr

/-- Modelled from the spec: the engine's
`CREATE TABLE IF NOT EXISTS <name> AS SELECT * FROM <file>` statement —
"`IF NOT EXISTS` semantics — a second construction attempt against an
already-populated connection is a no-op for the create step".  The
statement creates the table from the file's rows only when no table of
that name exists; the engine itself is an external dependency, not code
of this repository. -/
def createTableIfNotExists (name : Str) (data : List (List Value))
    (s : DuckState) : DuckState :=
  if s.tables.any (fun p => p.1 == name) then s
  else { s with tables := s.tables ++ [(name, data)] }

/-- `COMMENT ON TABLE <name> IS <c>`. -/
def commentOnTable (name c : Str) (s : DuckState) : DuckState :=
  { s with tableComments := dictInsert s.tableComments name c }

/-- `COMMENT ON COLUMN service_requests.<col> IS <c>`. -/
def commentOnColumn (col c : Str) (s : DuckState) : DuckState :=
  { s with columnComments := dictInsert s.columnComments col c }

/-- The table comment attached by `_initialize_tables`
(`src/data_mcp/models.py`, line 40). -/
def table_comment_text : Str :=
  ("NYC 311 Service Requests data for 2024 containing complaint " ++
   "information, locations, agencies, and resolution details").data

/-- State-level embedding of `AppContext._initialize_tables` for the run
where every statement succeeds: create the table from the parquet file's
rows if the file exists, then attach the table comment and the column
comments in source order. -/
def initialize_tables_state (fileExists : Bool)
    (fileData : List (List Value)) (s : DuckState) : DuckState :=
  if fileExists then
    column_comments.foldl (fun st p => commentOnColumn p.1 p.2 st)
      (commentOnTable "service_requests".data table_comment_text
        (createTableIfNotExists "service_requests".data fileData s))
  else s

/-- `db.execute("SELECT * FROM service_requests")`-style view of the
table contents: which rows the named table currently holds. -/
def lookupTable (n : Str) (s : DuckState) : Option (List (List Value)) :=
  (s.tables.find? (fun p => p.1 == n)).map Prod.snd

lemma tables_foldl_comments : ∀ (ps : List (Str × Str)) (s : DuckState),
    (ps.foldl (fun st p => commentOnColumn p.1 p.2 st) s).tables
      = s.tables := by
  intro ps
  induction ps with
  | nil => exact fun s => rfl
  | cons p ps ih => exact fun s => ih _

lemma tables_initialize_tables_state (fd : List (List Value))
    (s : DuckState) :
    (initialize_tables_state true fd s).tables
      = (createTableIfNotExists "service_requests".data fd s).tables := by
  simp only [initialize_tables_state, if_true, tables_foldl_comments]
  rfl

lemma hasTable_createTableIfNotExists (n : Str) (d : List (List Value))
    (s : DuckState) :
    ((createTableIfNotExists n d s).tables.any (fun p => p.1 == n))
      = true := by
  unfold createTableIfNotExists
  by_cases h : s.tables.any (fun p => p.1 == n) = true
  · rw [if_pos h]; exact h
  · rw [if_neg h]
    simp

/-- C8: a second construction of the application context against the same
connection leaves the `service_requests` table exactly as the first
construction left it — same table list, the originally loaded rows (even
if the file's contents changed in between), and exactly one table entry
of that name. -/
theorem initialize_tables_state_idempotent (s : DuckState)
    (fd fd' : List (List Value))
    (h : s.tables.any (fun p => p.1 == "service_requests".data) = false) :
    ((initialize_tables_state true fd'
        (initialize_tables_state true fd s)).tables
      = (initialize_tables_state true fd s).tables) ∧
    lookupTable "service_requests".data (initialize_tables_state true fd s)
      = some fd ∧
    lookupTable "service_requests".data
        (initialize_tables_state true fd' (initialize_tables_state true fd s))
      = some fd ∧
    (initialize_tables_state true fd s).tables.countP
        (fun p => p.1 == "service_requests".data) = 1 ∧
    (initialize_tables_state true fd'
        (initialize_tables_state true fd s)).tables.countP
        (fun p => p.1 == "service_requests".data) = 1 := by
  have hall : ∀ p ∈ s.tables, ¬(p.1 == "service_requests".data) = true :=
    List.any_eq_false.mp h
  have htab1 : (initialize_tables_state true fd s).tables
      = s.tables ++ [("service_requests".data, fd)] := by
    rw [tables_initialize_tables_state]
    unfold createTableIfNotExists
    rw [if_neg (by simp [h])]
  have hhas1 : ((initialize_tables_state true fd s).tables.any
      (fun p => p.1 == "service_requests".data)) = true := by
    rw [tables_initialize_tables_state]
    exact hasTable_createTableIfNotExists _ _ _
  have htab2 : (initialize_tables_state true fd'
      (initialize_tables_state true fd s)).tables
      = (initialize_tables_state true fd s).tables := by
    rw [tables_initialize_tables_state]
    unfold createTableIfNotExists
    rw [if_pos hhas1]
  have hfind : (s.tables.find?
      (fun p => p.1 == "service_requests".data)) = none :=
    List.find?_eq_none.mpr hall
  have hlook : lookupTable "service_requests".data
      (initialize_tables_state true fd s) = some fd := by
    unfold lookupTable
    rw [htab1, List.find?_append, hfind]
    rfl
  have hcount : (initialize_tables_state true fd s).tables.countP
      (fun p => p.1 == "service_requests".data) = 1 := by
    rw [htab1, List.countP_append, List.countP_eq_zero.mpr hall]
    rfl
  refine ⟨htab2, hlook, ?_, hcount, ?_⟩
  · unfold lookupTable
    unfold lookupTable at hlook
    rw [htab2]
    exact hlook
  · rw [htab2]
    exact hcount

theorem initialize_tables_state_idempotent_witness :
    ((⟨[], [], []⟩ : DuckState).tables.any
        (fun p => p.1 == "service_requests".data) = false) ∧
    (((initialize_tables_state true [[Value.intV 2]]
        (initialize_tables_state true [[Value.intV 1]] ⟨[], [], []⟩)).tables
      = (initialize_tables_state true [[Value.intV 1]]
          (⟨[], [], []⟩ : DuckState)).tables) ∧
     lookupTable "service_requests".data
        (initialize_tables_state true [[Value.intV 1]]
          (⟨[], [], []⟩ : DuckState)) = some [[Value.intV 1]] ∧
     lookupTable "service_requests".data
        (initialize_tables_state true [[Value.intV 2]]
          (initialize_tables_state true [[Value.intV 1]]
            (⟨[], [], []⟩ : DuckState))) = some [[Value.intV 1]] ∧
     (initialize_tables_state true [[Value.intV 1]]
        (⟨[], [], []⟩ : DuckState)).tables.countP
        (fun p => p.1 == "service_requests".data) = 1 ∧
     (initialize_tables_state true [[Value.intV 2]]
        (initialize_tables_state true [[Value.intV 1]]
          (⟨[], [], []⟩ : DuckState))).tables.countP
        (fun p => p.1 == "service_requests".data) = 1) :=
  ⟨rfl, initialize_tables_state_idempotent ⟨[], [], []⟩
    [[Value.intV 1]] [[Value.intV 2]] rfl⟩

end DataMcp
